import Mathlib

/-!
# Verification of the NEPSE auto-buyer core (`src/main.py`, class `NEPSEAutoBuyer`)

Shallow embedding of the per-symbol watch/decide/dispatch loop (`detect`),
the idempotency-token pool (`generate_duplicate_order_id` / `setup`), the
market gate (`market_status` / `wait_market_open`) and the orchestrator
(`runner`).  Numeric fields that Python holds as floats are modelled as
exact rationals; Python's `int()` truncation toward zero is `pyInt`.
Network polls are modelled as an input list of parsed quote snapshots: the
list ending corresponds to `watch_stock` raising (market closed / parse
failure), which the `try` block of `detect` turns into loop termination.
-/

/-- Python `int()` applied to an exact rational value: truncation toward
zero (`Int.tdiv` of numerator by denominator). -/
def pyInt (q : ℚ) : ℤ := q.num.tdiv (q.den : ℤ)

/-- Truncation to one decimal place, `int(x * 10) / 10`, as used for
`circuit_price` (line 169) and `high_price` (line 231). -/
def trunc1 (x : ℚ) : ℚ := (pyInt (x * 10) : ℚ) / 10

/-- Line 226 of the source: the ceiling band percent truncated to two
decimals, `int(((circuit_price - previous_day_closing) * 100 / previous_day_closing) * 100) / 100`. -/
def circuit_per_calc (circuit_price previous_day_closing : ℚ) : ℚ :=
  (pyInt ((circuit_price - previous_day_closing) * 100 / previous_day_closing * 100) : ℚ) / 100

/-- One parsed market-data poll result, the fields `watch_stock` reads from
the broker payload (lines 165-169); `highdpr` is the raw ceiling price
before the one-decimal truncation. -/
structure Quote where
  tradeprice : ℚ
  vwap : ℚ
  openingprice : ℚ
  perchange : ℚ
  highdpr : ℚ
deriving Repr, DecidableEq

/-- The per-symbol mutable state dictionary created in `__init__`
(lines 59-76), with the float fields as rationals. -/
structure SymState where
  applied_qnty : ℕ
  opening_price : ℚ
  percent : ℚ
  ltp : ℚ
  ltp_p : ℚ
  circuit_price : ℚ
  previous_day_closing : ℚ
  high_price : ℚ
  initial_per : ℚ
  circuit_per : ℚ
  remain_per : ℚ
  duplicate_order_id : Option String
  duplicate_order_ids : List String
  order_id_index : ℕ
deriving Repr, DecidableEq

/-- The initial per-symbol state of `__init__` (lines 59-76):
all numeric fields 0 except `initial_per = -2`, empty token pool. -/
def initState (quantity : ℕ) : SymState :=
  { applied_qnty := quantity
    opening_price := 0
    percent := 0
    ltp := 0
    ltp_p := 0
    circuit_price := 0
    previous_day_closing := 0
    high_price := 0
    initial_per := -2
    circuit_per := 0
    remain_per := 0
    duplicate_order_id := none
    duplicate_order_ids := []
    order_id_index := 0 }

/-- The state after `setup` has filled the token pool (lines 94-96). -/
def setupState (quantity : ℕ) (tokens : List String) : SymState :=
  { initState quantity with duplicate_order_ids := tokens }

/-- The effect of one successful `watch_stock` call on the state
(lines 165-169): overwrite the five quote fields; `circuit_price` is the
raw `highdpr` truncated to one decimal. -/
def applyQuote (s : SymState) (q : Quote) : SymState :=
  { s with
    ltp := q.tradeprice
    previous_day_closing := q.vwap
    opening_price := q.openingprice
    percent := q.perchange
    circuit_price := trunc1 q.highdpr }

/-- An order submission as `place_buy_order` sends it: `spnQuantity`,
`spnPrice` (= `state['high_price']` at call time) and `duplicateOrderId`. -/
structure Order where
  qty : ℕ
  price : ℚ
  token : String
deriving Repr, DecidableEq

/-- Outcome of one execution of the `while True` body of `detect`
(lines 230-243) before the trailing `watch_stock` call. -/
inductive BodyOut where
  | final (s : SymState) (ord : Order)
  | tokenErr (s : SymState)
  | cont (s : SymState) (ord : Option Order)
deriving Repr, DecidableEq

/-- The state an execution of the loop body leaves behind. -/
def BodyOut.state : BodyOut → SymState
  | .final s _ => s
  | .tokenErr s => s
  | .cont s _ => s

/-- Lines 230-231: `ltp_p = float(ltp)` and
`high_price = int(ltp_p * 1.02 * 10) / 10`, executed every iteration. -/
def quoteStep (s : SymState) : SymState :=
  { s with ltp_p := s.ltp, high_price := trunc1 (s.ltp * (102 / 100)) }

/-- One execution of the body of `while True` in `detect` (lines 229-243):
eligibility test `percent > initial_per`; token draw (an out-of-range index
raises, modelled as `tokenErr`); `remain_per = circuit_per - percent`; the
`remain_per <= 2.1` final push at the ceiling price with the configured
quantity, else a probing order of quantity 10 followed by
`initial_per = percent` and `order_id_index += 1`. -/
def detectBody (s : SymState) : BodyOut :=
  if (quoteStep s).initial_per < (quoteStep s).percent then
    match (quoteStep s).duplicate_order_ids[(quoteStep s).order_id_index]? with
    | none => BodyOut.tokenErr (quoteStep s)
    | some tok =>
      if (quoteStep s).circuit_per - (quoteStep s).percent ≤ 21 / 10 then
        BodyOut.final
          { quoteStep s with
            duplicate_order_id := some tok
            remain_per := (quoteStep s).circuit_per - (quoteStep s).percent
            high_price := (quoteStep s).circuit_price }
          ⟨(quoteStep s).applied_qnty, (quoteStep s).circuit_price, tok⟩
      else
        BodyOut.cont
          { quoteStep s with
            duplicate_order_id := some tok
            remain_per := (quoteStep s).circuit_per - (quoteStep s).percent
            initial_per := (quoteStep s).percent
            order_id_index := (quoteStep s).order_id_index + 1 }
          (some ⟨10, (quoteStep s).high_price, tok⟩)
  else
    BodyOut.cont (quoteStep s) none

/-- Why a run of `detect`'s main loop ended. -/
inductive Reason where
  | success
  | tokenExhausted
  | quotesEnded
  | neverOpened
deriving Repr, DecidableEq

/-- The observable outcome of one `detect` run: orders submitted in order,
final state, the sequence of states taken, and the termination reason. -/
structure RunResult where
  orders : List Order
  final : SymState
  trace : List SymState
  reason : Reason
deriving Repr, DecidableEq

/-- The `while True` loop of `detect` (lines 228-247) over a finite input
list of future quote polls: the body runs, then `watch_stock` fills the
next quote; the input ending models `watch_stock` raising, which the
`except` clause turns into a return (`quotesEnded`).  A `final` body
outcome is the `return` at line 240; `tokenErr` is the `IndexError` the
`except` clause catches (`tokenExhausted`). -/
def detectActive : SymState → List Quote → RunResult
  | s, [] =>
    match detectBody s with
    | BodyOut.final s' ord => ⟨[ord], s', [s, s'], Reason.success⟩
    | BodyOut.tokenErr s' => ⟨[], s', [s, s'], Reason.tokenExhausted⟩
    | BodyOut.cont s' oord => ⟨oord.toList, s', [s, s'], Reason.quotesEnded⟩
  | s, q :: rest =>
    match detectBody s with
    | BodyOut.final s' ord => ⟨[ord], s', [s, s'], Reason.success⟩
    | BodyOut.tokenErr s' => ⟨[], s', [s, s'], Reason.tokenExhausted⟩
    | BodyOut.cont s' oord =>
      let r := detectActive (applyQuote s' q) rest
      ⟨oord.toList ++ r.orders, r.final, s :: s' :: r.trace, r.reason⟩

/-- The `while not state['opening_price']` pre-phase of `detect`
(lines 223-224): poll until an opening price is observed; returns the
state at exit together with the unconsumed polls. -/
def awaitOpen : SymState → List Quote → Option (SymState × List Quote)
  | s, [] => if s.opening_price = 0 then none else some (s, [])
  | s, q :: rest =>
    if s.opening_price = 0 then awaitOpen (applyQuote s q) rest
    else some (s, q :: rest)

/-- The whole of `detect` (lines 219-247): await an opening price, compute
`circuit_per` once (line 226), then run the dispatch loop. -/
def detect (s0 : SymState) (qs : List Quote) : RunResult :=
  match awaitOpen s0 qs with
  | none => ⟨[], s0, [s0], Reason.neverOpened⟩
  | some (s1, rest) =>
    detectActive
      { s1 with circuit_per := circuit_per_calc s1.circuit_price s1.previous_day_closing }
      rest

/-- Line 79: the alphabet `"123456789abc…XYZ"` (61 characters, no digit 0). -/
def chars : List Char :=
  "123456789abcdefghijklmnopqrstuvwxyzABCDEFGHIJKLMNOPQRSTUVWXYZ".toList

/-- Line 80: `trimmed_chars = chars[:-2]` — the alphabet with its last two
characters removed. -/
def trimmed_chars : List Char := chars.dropLast.dropLast

/-- Lines 78-81: `''.join(random.choices(trimmed_chars, k=10))`.  The
random source is modelled as a function `pick` giving the choice index of
each draw; `random.choices` may pick any position of `trimmed_chars`, so an
arbitrary `pick : ℕ → ℕ` (reduced mod the alphabet size) ranges over
exactly the outcomes the source can produce. -/
def generate_duplicate_order_id (pick : ℕ → ℕ) : String :=
  String.mk ((List.range 10).map fun j => trimmed_chars.getD (pick j % trimmed_chars.length) 'a')

/-- Lines 94-96 of `setup`: twenty pool tokens per symbol, drawn from one
random stream (`pick` numbers the individual character draws). -/
def setup_tokens (pick : ℕ → ℕ) : List String :=
  (List.range 20).map fun i => generate_duplicate_order_id fun j => pick (10 * i + j)

/-- The release test of `wait_market_open` (line 265):
`current_time.hour >= 11 and status != "Close"`.  `status` is the value
returned by `market_status`, `none` standing for Python `None`. -/
def gate_release (hour : ℕ) (status : Option String) : Bool :=
  if 11 ≤ hour ∧ status ≠ some "Close" then true else false

/-- Model of `market_status` (lines 249-259): on HTTP 200 return the parsed
`data.status` field, or `None` when the payload cannot be parsed
(the `except` branch logs and falls through to `return None`); on a
non-200 response return `None`.  `parsed` is `none` exactly when the
payload is unparseable. -/
def market_status (httpStatus : ℕ) (parsed : Option String) : Option String :=
  if httpStatus = 200 then parsed else none

/-- The `wait_market_open` loop (lines 261-268) over the finite sequence of
(hour, status) observations it makes: the index of the first observation at
which it returns, or `none` when the gate never releases within the given
observations. -/
def wait_market_open : List (ℕ × Option String) → Option ℕ
  | [] => none
  | (hour, status) :: rest =>
    if gate_release hour status then some 0
    else (wait_market_open rest).map (· + 1)

/-- The steps of `runner` (lines 270-277), in program order. -/
inductive RunEvent where
  | setupEv
  | login
  | fetch_user_details
  | wait_market_open_ev
  | detect_all
  | close
deriving Repr, DecidableEq

/-- Which of the four fallible pre-phase steps of `runner` succeed on a
given run (each models whether the corresponding awaited coroutine raises). -/
structure PhaseOutcome where
  setup_ok : Bool
  login_ok : Bool
  fetch_ok : Bool
  gate_ok : Bool
deriving Repr, DecidableEq

/-- Model of `runner` (lines 270-277): the sequence of steps performed.
Each step runs only if every earlier step succeeded — there is no
`try`/`finally` around the body, so an exception anywhere skips the rest.
`asyncio.gather(..., return_exceptions=True)` (line 276) never raises, so
once `detect_all` is reached, `close` is always performed. -/
def runner (o : PhaseOutcome) : List RunEvent :=
  RunEvent.setupEv ::
    (if o.setup_ok then
      RunEvent.login ::
        (if o.login_ok then
          RunEvent.fetch_user_details ::
            (if o.fetch_ok then
              RunEvent.wait_market_open_ev ::
                (if o.gate_ok then [RunEvent.detect_all, RunEvent.close] else [])
            else [])
        else [])
    else [])

def c2State : SymState :=
  { setupState 50 ["w1w1w1w1w1"] with percent := 9, circuit_per := 10, circuit_price := 110, ltp := 108 }

def c2Quote : Quote := ⟨108, 100, 100, 9, 110⟩

def c3State : SymState := { setupState 10 [] with percent := 5 }

def c1Tokens : List String := ["dHxw1p7Qv3"]

/-- A first poll carrying `perchange = -5`: a real percent-change value
(the NEPSE daily band reaches -10 %) that is below the `-2` sentinel. -/
def c1Quote : Quote := ⟨500, 500, 505, -5, 550⟩

def c1wState : SymState :=
  { setupState 300 ["aQ3k9mPx2R"] with percent := 1, circuit_per := 10, ltp := 100 }

def c8State : SymState :=
  { setupState 40 ["bT7u2wQn54"] with percent := 4, initial_per := 4, circuit_per := 10, ltp := 200 }

def c8Quote : Quote := ⟨200, 100, 100, 4, 110⟩

@[simp] theorem quoteStep_percent (s : SymState) : (quoteStep s).percent = s.percent := rfl

@[simp] theorem quoteStep_initial_per (s : SymState) : (quoteStep s).initial_per = s.initial_per := rfl

@[simp] theorem quoteStep_circuit_per (s : SymState) : (quoteStep s).circuit_per = s.circuit_per := rfl

@[simp] theorem quoteStep_circuit_price (s : SymState) : (quoteStep s).circuit_price = s.circuit_price := rfl

@[simp] theorem quoteStep_applied_qnty (s : SymState) : (quoteStep s).applied_qnty = s.applied_qnty := rfl

@[simp] theorem quoteStep_order_id_index (s : SymState) : (quoteStep s).order_id_index = s.order_id_index := rfl

@[simp] theorem quoteStep_duplicate_order_ids (s : SymState) : (quoteStep s).duplicate_order_ids = s.duplicate_order_ids := rfl

@[simp] theorem quoteStep_duplicate_order_id (s : SymState) : (quoteStep s).duplicate_order_id = s.duplicate_order_id := rfl

@[simp] theorem quoteStep_remain_per (s : SymState) : (quoteStep s).remain_per = s.remain_per := rfl

@[simp] theorem quoteStep_high_price (s : SymState) : (quoteStep s).high_price = trunc1 (s.ltp * (102 / 100)) := rfl

@[simp] theorem quoteStep_ltp_p (s : SymState) : (quoteStep s).ltp_p = s.ltp := rfl

@[simp] theorem quoteStep_ltp (s : SymState) : (quoteStep s).ltp = s.ltp := rfl

@[simp] theorem applyQuote_initial_per (s : SymState) (q : Quote) : (applyQuote s q).initial_per = s.initial_per := rfl

@[simp] theorem applyQuote_circuit_per (s : SymState) (q : Quote) : (applyQuote s q).circuit_per = s.circuit_per := rfl

@[simp] theorem applyQuote_applied_qnty (s : SymState) (q : Quote) : (applyQuote s q).applied_qnty = s.applied_qnty := rfl

@[simp] theorem applyQuote_order_id_index (s : SymState) (q : Quote) : (applyQuote s q).order_id_index = s.order_id_index := rfl

@[simp] theorem applyQuote_duplicate_order_ids (s : SymState) (q : Quote) : (applyQuote s q).duplicate_order_ids = s.duplicate_order_ids := rfl

@[simp] theorem applyQuote_percent (s : SymState) (q : Quote) : (applyQuote s q).percent = q.perchange := rfl

@[simp] theorem BodyOut_state_final (s : SymState) (ord : Order) : (BodyOut.final s ord).state = s := rfl

@[simp] theorem BodyOut_state_tokenErr (s : SymState) : (BodyOut.tokenErr s).state = s := rfl

@[simp] theorem BodyOut_state_cont (s : SymState) (oord : Option Order) : (BodyOut.cont s oord).state = s := rfl

/-- Not-eligible iteration (`percent <= initial_per`): only the two derived
quote fields are rewritten, no order is sent. -/
theorem detectBody_skip (s : SymState) (h : ¬ s.initial_per < s.percent) :
    detectBody s = BodyOut.cont (quoteStep s) none := by
  simp [detectBody, h]

/-- Eligible iteration with the token pool already consumed: the draw at
`order_id_index` fails and the loop dies on the raised `IndexError`. -/
theorem detectBody_token_err (s : SymState) (h : s.initial_per < s.percent)
    (ht : s.duplicate_order_ids[s.order_id_index]? = none) :
    detectBody s = BodyOut.tokenErr (quoteStep s) := by
  simp [detectBody, h, ht]

/-- Eligible iteration inside the ceiling band (`remain_per <= 2.1`):
the final push order at the ceiling price with the configured quantity. -/
theorem detectBody_final (s : SymState) (tok : String) (h : s.initial_per < s.percent)
    (ht : s.duplicate_order_ids[s.order_id_index]? = some tok)
    (hr : s.circuit_per - s.percent ≤ 21 / 10) :
    detectBody s =
      BodyOut.final
        { quoteStep s with
          duplicate_order_id := some tok
          remain_per := s.circuit_per - s.percent
          high_price := s.circuit_price }
        ⟨s.applied_qnty, s.circuit_price, tok⟩ := by
  simp [detectBody, h, ht, hr]

/-- Eligible iteration outside the ceiling band: a probing order of
quantity 10 at the protective limit price, then
`initial_per = percent` and `order_id_index += 1`. -/
theorem detectBody_probe (s : SymState) (tok : String) (h : s.initial_per < s.percent)
    (ht : s.duplicate_order_ids[s.order_id_index]? = some tok)
    (hr : ¬ s.circuit_per - s.percent ≤ 21 / 10) :
    detectBody s =
      BodyOut.cont
        { quoteStep s with
          duplicate_order_id := some tok
          remain_per := s.circuit_per - s.percent
          initial_per := s.percent
          order_id_index := s.order_id_index + 1 }
        (some ⟨10, trunc1 (s.ltp * (102 / 100)), tok⟩) := by
  simp [detectBody, h, ht, hr]

/-- A `final` body outcome ends the run at once, whatever polls remain. -/
theorem detectActive_final (s : SymState) (qs : List Quote) (s' : SymState) (ord : Order)
    (h : detectBody s = BodyOut.final s' ord) :
    detectActive s qs = ⟨[ord], s', [s, s'], Reason.success⟩ := by
  cases qs <;> simp [detectActive, h]

/-- A failed token draw ends the run at once, whatever polls remain. -/
theorem detectActive_token_err (s : SymState) (qs : List Quote) (s' : SymState)
    (h : detectBody s = BodyOut.tokenErr s') :
    detectActive s qs = ⟨[], s', [s, s'], Reason.tokenExhausted⟩ := by
  cases qs <;> simp [detectActive, h]

/-- A continuing body outcome with no polls left: `watch_stock` raises and
the `except` clause returns. -/
theorem detectActive_cont_nil (s : SymState) (s' : SymState) (oord : Option Order)
    (h : detectBody s = BodyOut.cont s' oord) :
    detectActive s [] = ⟨oord.toList, s', [s, s'], Reason.quotesEnded⟩ := by
  simp [detectActive, h]

/-- A continuing body outcome followed by a successful poll. -/
theorem detectActive_cont_cons (s : SymState) (q : Quote) (rest : List Quote)
    (s' : SymState) (oord : Option Order)
    (h : detectBody s = BodyOut.cont s' oord) :
    detectActive s (q :: rest) =
      ⟨oord.toList ++ (detectActive (applyQuote s' q) rest).orders,
       (detectActive (applyQuote s' q) rest).final,
       s :: s' :: (detectActive (applyQuote s' q) rest).trace,
       (detectActive (applyQuote s' q) rest).reason⟩ := by
  simp [detectActive, h]

/-- The loop body never touches the token pool, the configured quantity or
the computed ceiling band, never moves the cursor past the pool, never
decreases `initial_per`, and keeps the cursor within the pool if it was. -/
theorem detectBody_frame (s : SymState) :
    (detectBody s).state.duplicate_order_ids = s.duplicate_order_ids ∧
    (detectBody s).state.applied_qnty = s.applied_qnty ∧
    (detectBody s).state.circuit_per = s.circuit_per ∧
    s.initial_per ≤ (detectBody s).state.initial_per ∧
    (s.order_id_index ≤ s.duplicate_order_ids.length →
      (detectBody s).state.order_id_index ≤ s.duplicate_order_ids.length) := by
  by_cases h : s.initial_per < s.percent
  · cases ht : s.duplicate_order_ids[s.order_id_index]? with
    | none =>
      rw [detectBody_token_err s h ht]
      simp
    | some tok =>
      by_cases hr : s.circuit_per - s.percent ≤ 21 / 10
      · rw [detectBody_final s tok h ht hr]
        simp
      · rw [detectBody_probe s tok h ht hr]
        have hlt : s.order_id_index < s.duplicate_order_ids.length := by
          by_contra hge
          rw [List.getElem?_eq_none (by omega)] at ht
          exact Option.noConfusion ht
        simp [quoteStep]
        exact ⟨le_of_lt h, by omega⟩
  · rw [detectBody_skip s h]
    simp

/-- Run-level frame: a whole `detectActive` run preserves the token pool,
the configured quantity and the ceiling band, and keeps the cursor within
the pool. -/
theorem detectActive_frame (qs : List Quote) : ∀ s : SymState,
    (detectActive s qs).final.duplicate_order_ids = s.duplicate_order_ids ∧
    (detectActive s qs).final.applied_qnty = s.applied_qnty ∧
    (detectActive s qs).final.circuit_per = s.circuit_per ∧
    (s.order_id_index ≤ s.duplicate_order_ids.length →
      (detectActive s qs).final.order_id_index ≤ s.duplicate_order_ids.length) := by
  induction qs with
  | nil =>
    intro s
    obtain ⟨h1, h2, h3, _, h5⟩ := detectBody_frame s
    cases hb : detectBody s with
    | final s' ord =>
      rw [hb] at h1 h2 h3 h5
      simp only [BodyOut_state_final] at h1 h2 h3 h5
      rw [detectActive_final s [] s' ord hb]
      exact ⟨h1, h2, h3, h5⟩
    | tokenErr s' =>
      rw [hb] at h1 h2 h3 h5
      simp only [BodyOut_state_tokenErr] at h1 h2 h3 h5
      rw [detectActive_token_err s [] s' hb]
      exact ⟨h1, h2, h3, h5⟩
    | cont s' oord =>
      rw [hb] at h1 h2 h3 h5
      simp only [BodyOut_state_cont] at h1 h2 h3 h5
      rw [detectActive_cont_nil s s' oord hb]
      exact ⟨h1, h2, h3, h5⟩
  | cons q rest ih =>
    intro s
    obtain ⟨h1, h2, h3, _, h5⟩ := detectBody_frame s
    cases hb : detectBody s with
    | final s' ord =>
      rw [hb] at h1 h2 h3 h5
      simp only [BodyOut_state_final] at h1 h2 h3 h5
      rw [detectActive_final s (q :: rest) s' ord hb]
      exact ⟨h1, h2, h3, h5⟩
    | tokenErr s' =>
      rw [hb] at h1 h2 h3 h5
      simp only [BodyOut_state_tokenErr] at h1 h2 h3 h5
      rw [detectActive_token_err s (q :: rest) s' hb]
      exact ⟨h1, h2, h3, h5⟩
    | cont s' oord =>
      rw [hb] at h1 h2 h3 h5
      simp only [BodyOut_state_cont] at h1 h2 h3 h5
      obtain ⟨g1, g2, g3, g5⟩ := ih (applyQuote s' q)
      simp only [applyQuote_duplicate_order_ids, applyQuote_applied_qnty,
        applyQuote_circuit_per, applyQuote_order_id_index] at g1 g2 g3 g5
      rw [detectActive_cont_cons s q rest s' oord hb]
      refine ⟨by simpa [g1] using h1, by simpa [g2] using h2, by simpa [g3] using h3, ?_⟩
      intro hcur
      have h5' := h5 hcur
      show (detectActive (applyQuote s' q) rest).final.order_id_index ≤
        s.duplicate_order_ids.length
      rw [h1] at g5 g1
      have := g5 (by omega)
      omega

/-- The `initial_per` sequence along the trace of a run is non-decreasing,
and the trace starts at the initial state. -/
theorem detectActive_trace_mono (qs : List Quote) : ∀ s : SymState,
    List.Chain' (fun a b => a.initial_per ≤ b.initial_per) (detectActive s qs).trace ∧
    (detectActive s qs).trace.head? = some s := by
  induction qs with
  | nil =>
    intro s
    obtain ⟨_, _, _, h4, _⟩ := detectBody_frame s
    cases hb : detectBody s with
    | final s' ord =>
      rw [hb] at h4
      simp only [BodyOut_state_final] at h4
      rw [detectActive_final s [] s' ord hb]
      simpa using h4
    | tokenErr s' =>
      rw [hb] at h4
      simp only [BodyOut_state_tokenErr] at h4
      rw [detectActive_token_err s [] s' hb]
      simpa using h4
    | cont s' oord =>
      rw [hb] at h4
      simp only [BodyOut_state_cont] at h4
      rw [detectActive_cont_nil s s' oord hb]
      simpa using h4
  | cons q rest ih =>
    intro s
    obtain ⟨_, _, _, h4, _⟩ := detectBody_frame s
    cases hb : detectBody s with
    | final s' ord =>
      rw [hb] at h4
      simp only [BodyOut_state_final] at h4
      rw [detectActive_final s (q :: rest) s' ord hb]
      simpa using h4
    | tokenErr s' =>
      rw [hb] at h4
      simp only [BodyOut_state_tokenErr] at h4
      rw [detectActive_token_err s (q :: rest) s' hb]
      simpa using h4
    | cont s' oord =>
      rw [hb] at h4
      simp only [BodyOut_state_cont] at h4
      obtain ⟨g1, g2⟩ := ih (applyQuote s' q)
      rw [detectActive_cont_cons s q rest s' oord hb]
      refine ⟨?_, rfl⟩
      show List.Chain'
        (fun a b => a.initial_per ≤ b.initial_per)
        (s :: s' :: (detectActive (applyQuote s' q) rest).trace)
      rw [List.chain'_cons]
      refine ⟨h4, List.chain'_cons'.mpr ⟨?_, g1⟩⟩
      intro b hbmem
      rw [g2] at hbmem
      simp only [Option.mem_def, Option.some.injEq] at hbmem
      subst hbmem
      simp

/-- For a nonnegative rational, Python `int()` truncation agrees with the
floor, i.e. rounds down. -/
theorem pyInt_eq_floor (q : ℚ) (h : 0 ≤ q) : pyInt q = ⌊q⌋ := by
  rw [Rat.floor_def]
  unfold pyInt
  exact Int.tdiv_eq_ediv (Rat.num_nonneg.mpr h) (Int.ofNat_nonneg q.den)

/-- C2: For every run of one symbol's DispatchLoop, the first iteration in
which the computed `remaining_gap_percent` (`circuit_per - percent`) is
`<= 2.1` submits exactly one more order, with limit price equal to the
ceiling price and quantity equal to the configured `applied_qnty`, and the
loop terminates: the result is independent of any remaining polls, the
trace ends at the final state, and the orders list holds exactly this one
order. -/
theorem terminal_push_single_order (s : SymState) (qs : List Quote) (tok : String)
    (hel : s.initial_per < s.percent)
    (htok : s.duplicate_order_ids[s.order_id_index]? = some tok)
    (hgap : s.circuit_per - s.percent ≤ 21 / 10) :
    ∃ sf, detectActive s qs =
      ⟨[⟨s.applied_qnty, s.circuit_price, tok⟩], sf, [s, sf], Reason.success⟩ :=
  ⟨_, detectActive_final s qs _ _ (detectBody_final s tok hel htok hgap)⟩



theorem terminal_push_single_order_witness :
    (c2State.initial_per < c2State.percent ∧
      c2State.duplicate_order_ids[c2State.order_id_index]? = some "w1w1w1w1w1" ∧
      c2State.circuit_per - c2State.percent ≤ 21 / 10) ∧
    (∃ sf, detectActive c2State [c2Quote] =
      ⟨[⟨c2State.applied_qnty, c2State.circuit_price, "w1w1w1w1w1"⟩], sf,
        [c2State, sf], Reason.success⟩) := by
  have h1 : c2State.initial_per < c2State.percent := by
    norm_num [c2State, setupState, initState]
  have h2 : c2State.duplicate_order_ids[c2State.order_id_index]? = some "w1w1w1w1w1" := by
    simp [c2State, setupState, initState]
  have h3 : c2State.circuit_per - c2State.percent ≤ 21 / 10 := by
    norm_num [c2State, setupState, initState]
  exact ⟨⟨h1, h2, h3⟩, terminal_push_single_order c2State [c2Quote] "w1w1w1w1w1" h1 h2 h3⟩

/-- C3: The token cursor never exceeds the pool size over a whole run, the
pool itself is never modified (no extension, no reuse of a fresh pool), an
eligible iteration whose draw index is at or beyond the pool size ends the
run at once with `tokenExhausted` and no order, and `setup` sizes the pool
at 20 tokens per symbol. -/
theorem token_cursor_bounded (s : SymState) (qs : List Quote) (pick : ℕ → ℕ) (quantity : ℕ)
    (h : s.order_id_index ≤ s.duplicate_order_ids.length) :
    ((detectActive s qs).final.order_id_index ≤ s.duplicate_order_ids.length ∧
      (detectActive s qs).final.duplicate_order_ids = s.duplicate_order_ids) ∧
    (s.duplicate_order_ids.length ≤ s.order_id_index → s.initial_per < s.percent →
      detectActive s qs = ⟨[], quoteStep s, [s, quoteStep s], Reason.tokenExhausted⟩) ∧
    (setupState quantity (setup_tokens pick)).duplicate_order_ids.length = 20 := by
  obtain ⟨f1, _, _, f4⟩ := detectActive_frame qs s
  refine ⟨⟨f4 h, f1⟩, ?_, ?_⟩
  · intro hge hel
    have ht : s.duplicate_order_ids[s.order_id_index]? = none :=
      List.getElem?_eq_none hge
    exact detectActive_token_err s qs _ (detectBody_token_err s hel ht)
  · simp [setupState, setup_tokens, initState]


theorem token_cursor_bounded_witness :
    (c3State.order_id_index ≤ c3State.duplicate_order_ids.length ∧
      c3State.duplicate_order_ids.length ≤ c3State.order_id_index ∧
      c3State.initial_per < c3State.percent) ∧
    detectActive c3State [] =
      ⟨[], quoteStep c3State, [c3State, quoteStep c3State], Reason.tokenExhausted⟩ ∧
    (setupState 10 (setup_tokens fun _ => 0)).duplicate_order_ids.length = 20 := by
  have h0 : c3State.order_id_index ≤ c3State.duplicate_order_ids.length := by
    simp [c3State, setupState, initState]
  have h1 : c3State.duplicate_order_ids.length ≤ c3State.order_id_index := by
    simp [c3State, setupState, initState]
  have h2 : c3State.initial_per < c3State.percent := by
    norm_num [c3State, setupState, initState]
  obtain ⟨_, hrun, hlen⟩ := token_cursor_bounded c3State [] (fun _ => 0) 10 h0
  exact ⟨⟨h0, h1, h2⟩, hrun h1 h2, hlen⟩

/-- C5: Along the life of one DispatchLoop run, the sequence of values
taken by `initial_per` (the last-trigger percent) is non-decreasing, and a
single body step either leaves `initial_per` unchanged or reassigns it to
the current `percent`, which is then strictly greater than the old value. -/
theorem last_trigger_monotone (s : SymState) (qs : List Quote) :
    List.Chain' (fun a b => a.initial_per ≤ b.initial_per) (detectActive s qs).trace ∧
    ((detectBody s).state.initial_per = s.initial_per ∨
      ((detectBody s).state.initial_per = s.percent ∧ s.initial_per < s.percent)) := by
  refine ⟨(detectActive_trace_mono qs s).1, ?_⟩
  by_cases h : s.initial_per < s.percent
  · cases ht : s.duplicate_order_ids[s.order_id_index]? with
    | none =>
      rw [detectBody_token_err s h ht]
      left; simp
    | some tok =>
      by_cases hr : s.circuit_per - s.percent ≤ 21 / 10
      · rw [detectBody_final s tok h ht hr]
        left; simp
      · rw [detectBody_probe s tok h ht hr]
        right; exact ⟨rfl, h⟩
  · rw [detectBody_skip s h]
    left; simp

/-- C6: `circuit_per` is the band `((circuit_price - previous_day_closing)
* 100 / previous_day_closing)` truncated (= rounded down, for the
nonnegative band the hypotheses describe) to two decimal places, it equals
exactly 10 for `previous_day_closing = 100` and `circuit_price = 110`, and
no iteration of the dispatch loop ever changes it after the one-time
computation at loop entry. -/
theorem circuit_per_truncation :
    circuit_per_calc 110 100 = 10 ∧
    (∀ cp pdc : ℚ, 0 < pdc → pdc ≤ cp →
      circuit_per_calc cp pdc = ((⌊(cp - pdc) * 100 / pdc * 100⌋ : ℚ) / 100)) ∧
    (∀ (s : SymState) (qs : List Quote),
      (detectActive s qs).final.circuit_per = s.circuit_per) := by
  have hgen : ∀ cp pdc : ℚ, 0 < pdc → pdc ≤ cp →
      circuit_per_calc cp pdc = ((⌊(cp - pdc) * 100 / pdc * 100⌋ : ℚ) / 100) := by
    intro cp pdc hpos hle
    have hnn : (0 : ℚ) ≤ (cp - pdc) * 100 / pdc * 100 :=
      mul_nonneg (div_nonneg (mul_nonneg (sub_nonneg.mpr hle) (by norm_num)) hpos.le) (by norm_num)
    rw [circuit_per_calc, pyInt_eq_floor _ hnn]
  refine ⟨?_, hgen, fun s qs => (detectActive_frame qs s).2.2.1⟩
  rw [hgen 110 100 (by norm_num) (by norm_num)]
  norm_num

theorem circuit_per_truncation_witness :
    (0 : ℚ) < 100 ∧ (100 : ℚ) ≤ 110 ∧
    circuit_per_calc 110 100 = ((⌊((110 : ℚ) - 100) * 100 / 100 * 100⌋ : ℚ) / 100) :=
  ⟨by norm_num, by norm_num,
    circuit_per_truncation.2.1 110 100 (by norm_num) (by norm_num)⟩



/-- Bridging equation: when the opening-price pre-phase exits with state
`s1` and remaining polls `rest`, `detect` continues as `detectActive` on
`s1` with the one-time `circuit_per` computation applied. -/
theorem detect_eq_of_awaitOpen (s0 s1 : SymState) (qs rest : List Quote)
    (h : awaitOpen s0 qs = some (s1, rest)) :
    detect s0 qs =
      detectActive
        { s1 with circuit_per := circuit_per_calc s1.circuit_price s1.previous_day_closing }
        rest := by
  rw [detect, h]

/-- C1 counterexample: the sentinel is `-2`, which is NOT lower than every
real percent-change value — on a first ACTIVE-phase poll with
`percent_change = -5` the quote is not strictly above the sentinel and no
probing order is submitted, refuting "the first real observation always
qualifies". -/
theorem sentinel_not_below_all_cex :
    (setupState 300 c1Tokens).initial_per = -2 ∧
    c1Quote.perchange ≤ (setupState 300 c1Tokens).initial_per ∧
    (detect (setupState 300 c1Tokens) [c1Quote]).orders = [] ∧
    (detect (setupState 300 c1Tokens) [c1Quote]).reason = Reason.quotesEnded := by
  have hsk : ¬ (-2 : ℚ) < -5 := by norm_num
  refine ⟨rfl, by norm_num [c1Quote, setupState, initState], ?_⟩
  have hopen0 : (setupState 300 c1Tokens).opening_price = 0 := rfl
  have hne : ¬ (applyQuote (setupState 300 c1Tokens) c1Quote).opening_price = 0 := by
    norm_num [applyQuote, c1Quote]
  have hA : awaitOpen (setupState 300 c1Tokens) [c1Quote] =
      some (applyQuote (setupState 300 c1Tokens) c1Quote, []) := by
    rw [awaitOpen, if_pos hopen0, awaitOpen, if_neg hne]
  rw [detect_eq_of_awaitOpen _ _ _ _ hA]
  rw [detectActive_cont_nil _ _ _ (detectBody_skip _ (by simpa using hsk))]
  exact ⟨rfl, rfl⟩

/-- C1 (amended): `initial_per` is initialised to the fixed sentinel `-2`
(which is *not* below every attainable percent change), and on the first
ACTIVE-phase iteration an order is triggered exactly by the strict
comparison against `-2`: a quote with `percent > -2` outside the final
band submits a probing order of quantity 10 and records the trigger, while
a quote with `percent <= -2` submits nothing. -/
theorem sentinel_first_trigger (quantity : ℕ) (s : SymState) (tok : String)
    (hinit : s.initial_per = -2)
    (htok : s.duplicate_order_ids[s.order_id_index]? = some tok) :
    (initState quantity).initial_per = -2 ∧
    (-2 < s.percent → ¬ s.circuit_per - s.percent ≤ 21 / 10 →
      detectBody s =
        BodyOut.cont
          { quoteStep s with
            duplicate_order_id := some tok
            remain_per := s.circuit_per - s.percent
            initial_per := s.percent
            order_id_index := s.order_id_index + 1 }
          (some ⟨10, trunc1 (s.ltp * (102 / 100)), tok⟩)) ∧
    (s.percent ≤ -2 → detectBody s = BodyOut.cont (quoteStep s) none) := by
  refine ⟨rfl, ?_, ?_⟩
  · intro hel hr
    exact detectBody_probe s tok (by rw [hinit]; exact hel) htok hr
  · intro hle
    exact detectBody_skip s (by rw [hinit]; exact not_lt.mpr hle)


theorem sentinel_first_trigger_witness :
    (c1wState.initial_per = -2 ∧
      c1wState.duplicate_order_ids[c1wState.order_id_index]? = some "aQ3k9mPx2R" ∧
      (-2 : ℚ) < c1wState.percent ∧ ¬ c1wState.circuit_per - c1wState.percent ≤ 21 / 10) ∧
    detectBody c1wState =
      BodyOut.cont
        { quoteStep c1wState with
          duplicate_order_id := some "aQ3k9mPx2R"
          remain_per := c1wState.circuit_per - c1wState.percent
          initial_per := c1wState.percent
          order_id_index := c1wState.order_id_index + 1 }
        (some ⟨10, trunc1 (c1wState.ltp * (102 / 100)), "aQ3k9mPx2R"⟩) := by
  have h0 : c1wState.initial_per = -2 := rfl
  have h1 : c1wState.duplicate_order_ids[c1wState.order_id_index]? = some "aQ3k9mPx2R" := by
    simp [c1wState, setupState, initState]
  have h2 : (-2 : ℚ) < c1wState.percent := by norm_num [c1wState, setupState, initState]
  have h3 : ¬ c1wState.circuit_per - c1wState.percent ≤ 21 / 10 := by
    norm_num [c1wState, setupState, initState]
  exact ⟨⟨h0, h1, h2, h3⟩, ((sentinel_first_trigger 300 c1wState "aQ3k9mPx2R" h0 h1).2.1) h2 h3⟩

/-- C8: Eligibility is a strict greater-than comparison.  (i) On an
iteration with `percent <= initial_per` no order is submitted and the
state is unchanged apart from the two freshly derived quote fields
(`ltp_p`, `high_price` — exactly what `quoteStep` overwrites).  (ii) After
an iteration that submitted a probing order, a second poll reporting the
identical `percent_change` submits nothing. -/
theorem strict_trigger_comparison (s : SymState) (q : Quote) (hq : q.perchange = s.percent) :
    (¬ s.initial_per < s.percent →
      detectBody s = BodyOut.cont (quoteStep s) none) ∧
    (∀ s' ord, detectBody s = BodyOut.cont s' (some ord) →
      detectBody (applyQuote s' q) = BodyOut.cont (quoteStep (applyQuote s' q)) none) := by
  refine ⟨detectBody_skip s, ?_⟩
  intro s' ord h
  by_cases hel : s.initial_per < s.percent
  · cases ht : s.duplicate_order_ids[s.order_id_index]? with
    | none =>
      rw [detectBody_token_err s hel ht] at h
      exact absurd h (by simp)
    | some tok =>
      by_cases hr : s.circuit_per - s.percent ≤ 21 / 10
      · rw [detectBody_final s tok hel ht hr] at h
        exact absurd h (by simp)
      · rw [detectBody_probe s tok hel ht hr] at h
        have hs' : s'.initial_per = s.percent := by
          have := (BodyOut.cont.injEq _ _ _ _).mp h.symm
          rw [this.1]
        apply detectBody_skip
        rw [applyQuote_initial_per, applyQuote_percent, hs', hq]
        exact lt_irrefl s.percent
  · rw [detectBody_skip s hel] at h
    exact absurd h (by simp)



theorem strict_trigger_comparison_witness :
    (c8Quote.perchange = c8State.percent ∧ ¬ c8State.initial_per < c8State.percent) ∧
    detectBody c8State = BodyOut.cont (quoteStep c8State) none := by
  have hq : c8Quote.perchange = c8State.percent := rfl
  have hne : ¬ c8State.initial_per < c8State.percent := by
    norm_num [c8State, setupState, initState]
  exact ⟨⟨hq, hne⟩, (strict_trigger_comparison c8State c8Quote hq).1 hne⟩

/-- Any character drawn by the token generator lies in the trimmed alphabet. -/
theorem trimmed_chars_getD_mem (k : ℕ) :
    trimmed_chars.getD (k % trimmed_chars.length) 'a' ∈ trimmed_chars := by
  have hlt : k % trimmed_chars.length < trimmed_chars.length :=
    Nat.mod_lt _ (by decide)
  rw [List.getD_eq_getElem trimmed_chars 'a' hlt]
  exact List.getElem_mem hlt

/-- C4 counterexample: `random.choices` draws independently, so the pool is
not guaranteed pairwise distinct — with the all-zero choice stream (a
possible outcome of the random source) all twenty tokens coincide. -/
theorem tokens_not_distinct_cex :
    (setup_tokens fun _ => 0).length = 20 ∧
    (setup_tokens fun _ => 0).all (fun t => t = "1111111111") = true ∧
    ¬ List.Pairwise (fun a b => a ≠ b) (setup_tokens fun _ => 0) := by
  refine ⟨by decide, by decide, ?_⟩
  intro hp
  have h01 : ("1111111111" : String) ≠ "1111111111" := by
    have h0 : (setup_tokens fun _ => 0)[0]? = some "1111111111" := by decide
    have h1 : (setup_tokens fun _ => 0)[1]? = some "1111111111" := by decide
    exact List.pairwise_iff_getElem.mp hp 0 1 (by decide) (by decide) (by decide)
  exact h01 rfl

/-- C4 (amended): token-pool generation produces 20 tokens, each of fixed
length 10, each drawn only from the trimmed alphabet, which excludes the
two trimmed characters `'Y'`, `'Z'` and contains no digit `'0'`; pairwise
distinctness, however, is only probabilistic, not guaranteed. -/
theorem tokens_shape (pick : ℕ → ℕ) :
    (setup_tokens pick).length = 20 ∧
    (∀ t ∈ setup_tokens pick, t.length = 10 ∧ ∀ c ∈ t.toList, c ∈ trimmed_chars) ∧
    ('Y' ∉ trimmed_chars ∧ 'Z' ∉ trimmed_chars ∧ '0' ∉ trimmed_chars) := by
  refine ⟨by simp [setup_tokens], ?_, by decide⟩
  intro t ht
  simp only [setup_tokens, List.mem_map, List.mem_range] at ht
  obtain ⟨i, _, rfl⟩ := ht
  refine ⟨by simp [generate_duplicate_order_id, String.length], ?_⟩
  intro c hc
  simp only [generate_duplicate_order_id, String.toList, List.mem_map,
    List.mem_range] at hc
  obtain ⟨j, _, rfl⟩ := hc
  exact trimmed_chars_getD_mem _

theorem tokens_shape_witness :
    "2222222222" ∈ setup_tokens (fun _ => 1) ∧
    ("2222222222" : String).length = 10 ∧ '2' ∈ trimmed_chars := by
  have hm : "2222222222" ∈ setup_tokens (fun _ => 1) := by decide
  obtain ⟨hlen, hchars⟩ := (tokens_shape (fun _ => 1)).2.1 _ hm
  exact ⟨hm, hlen, hchars '2' (by decide)⟩

/-- C7: the market gate never releases while the exchange-local hour is
below 11 whatever the reported status (test-level and loop-level), and it
releases as soon as the hour is at least 11 and the status is not
`"Close"` — in particular immediately at hour 11 with an open market. -/
theorem market_gate_release :
    (∀ (hour : ℕ) (status : Option String), hour < 11 → gate_release hour status = false) ∧
    (∀ obs : List (ℕ × Option String), (∀ p ∈ obs, p.1 < 11) → wait_market_open obs = none) ∧
    (∀ (hour : ℕ) (status : Option String), 11 ≤ hour → status ≠ some "Close" →
      gate_release hour status = true) ∧
    (∀ rest : List (ℕ × Option String), wait_market_open ((11, some "Open") :: rest) = some 0) := by
  have hlow : ∀ (hour : ℕ) (status : Option String), hour < 11 →
      gate_release hour status = false := by
    intro hour status hh
    simp only [gate_release, ite_eq_right_iff]
    intro hc
    omega
  refine ⟨hlow, ?_, ?_, ?_⟩
  · intro obs
    induction obs with
    | nil => intro _; rfl
    | cons p rest ih =>
      intro hall
      obtain ⟨hour, status⟩ := p
      rw [wait_market_open, hlow hour status (hall _ (List.mem_cons_self _ _)),
        if_neg (by simp), ih (fun p hp => hall p (List.mem_cons_of_mem _ hp))]
      rfl
  · intro hour status hh hs
    simp [gate_release, hh, hs]
  · intro rest
    rw [wait_market_open, if_pos (by decide)]

theorem market_gate_release_witness :
    (gate_release 10 (some "Open") = false ∧
      wait_market_open [(9, some "Open"), (10, none)] = none) ∧
    (gate_release 11 none = true ∧
      wait_market_open [(11, some "Open")] = some 0) := by
  obtain ⟨h1, h2, h3, h4⟩ := market_gate_release
  exact ⟨⟨h1 10 (some "Open") (by norm_num),
      h2 [(9, some "Open"), (10, none)] (by decide)⟩,
    ⟨h3 11 none (by norm_num) (by decide), h4 []⟩⟩

/-- C10: when the HTTP request succeeds (status 200) but the payload cannot
be parsed, `market_status` returns `None` rather than raising, and the gate
treats that `None` as "not closed": at any hour at least 11 the gate
releases even though no market status was actually determined. -/
theorem unparsed_status_releases (hour : ℕ) (h : 11 ≤ hour) :
    market_status 200 none = none ∧
    gate_release hour (market_status 200 none) = true ∧
    wait_market_open [(hour, market_status 200 none)] = some 0 := by
  have hms : market_status 200 none = none := rfl
  have hg : gate_release hour (market_status 200 none) = true := by
    rw [hms]
    simp [gate_release, h]
  exact ⟨hms, hg, by rw [wait_market_open, if_pos hg]⟩

theorem unparsed_status_releases_witness :
    (11 : ℕ) ≤ 11 ∧
    market_status 200 none = none ∧
    gate_release 11 (market_status 200 none) = true ∧
    wait_market_open [(11, market_status 200 none)] = some 0 :=
  ⟨by norm_num, unparsed_status_releases 11 (by norm_num)⟩

/-- C9 counterexample: `runner` has no `try`/`finally` — on a run where
authentication (`login`) raises, the session `close` step is never
performed, refuting "the session close operation is still performed before
the run ends" for every run. -/
theorem close_skipped_on_login_error_cex :
    RunEvent.login ∈ runner ⟨true, false, true, true⟩ ∧
    RunEvent.close ∉ runner ⟨true, false, true, true⟩ := by decide

/-- C9 (amended): the session close step is performed exactly when all four
fallible pre-phase steps (setup, login, fetch_user_details,
wait_market_open) succeed; a failure in any of them ends the run with no
close.  Failures inside the per-symbol detect loops never prevent the
close: whenever the detect phase is reached, close follows. -/
theorem close_iff_prephase_ok (o : PhaseOutcome) :
    (RunEvent.close ∈ runner o ↔
      o.setup_ok = true ∧ o.login_ok = true ∧ o.fetch_ok = true ∧ o.gate_ok = true) ∧
    (RunEvent.detect_all ∈ runner o → RunEvent.close ∈ runner o) := by
  obtain ⟨a, b, c, d⟩ := o
  cases a <;> cases b <;> cases c <;> cases d <;> decide

theorem close_iff_prephase_ok_witness :
    RunEvent.close ∈ runner ⟨true, true, true, true⟩ ∧
    RunEvent.close ∉ runner ⟨false, true, true, true⟩ := by
  refine ⟨(close_iff_prephase_ok ⟨true, true, true, true⟩).1.mpr
    ⟨rfl, rfl, rfl, rfl⟩, ?_⟩
  intro hmem
  have := (close_iff_prephase_ok ⟨false, true, true, true⟩).1.mp hmem
  exact absurd this.1 (by decide)
